import Mathlib

/-!
Verification development for the PS3 PPU ELF loader (cell_loader).
The definitions below are a shallow embedding of the loader source:
machine integers are Nat with explicit reductions modulo 2^32 / 2^64
where the C++ types (uint32, ea_t) truncate, the IDA address space is a
byte-granular memory with separate current and original (pre-patch)
contents, and the host annotation calls (force_name, set_cmt,
create_dword, ...) are recorded as action events.
-/

/-- 2^32, the modulus of uint32 arithmetic in the loader. -/
def M32 : Nat := 4294967296

/-- 2^64, the modulus of ea_t / uint64 arithmetic in the loader. -/
def M64 : Nat := 18446744073709551616

/-- Wrap-around subtraction of uint32 values (a - b as the C++ uint32 op). -/
def sub32 (a b : Nat) : Nat := (a + M32 - b % M32) % M32

/-- Wrap-around subtraction of uint64 / ea_t values. -/
def sub64 (a b : Nat) : Nat := (a + M64 - b % M64) % M64

/-- The IDA address space: byte-granular, with the current (patched)
contents and the original pre-patch contents.  patch_word / patch_dword
update only cur; get_original_dword reads orig. -/
structure Mem where
  orig : Nat → Nat
  cur : Nat → Nat

/-- get_byte: one byte of the current contents. -/
def readByte (m : Mem) (a : Nat) : Nat := m.cur a % 256

/-- One byte of the original (pre-patch) contents. -/
def readByteOrig (m : Mem) (a : Nat) : Nat := m.orig a % 256

/-- Store one byte into the current contents. -/
def writeByte (m : Mem) (a v : Nat) : Mem :=
  { m with cur := fun x => if x = a then v % 256 else m.cur x }

/-- get_word: big-endian 16-bit read of the current contents. -/
def read16 (m : Mem) (a : Nat) : Nat :=
  readByte m a * 256 + readByte m (a + 1)

/-- get_dword: big-endian 32-bit read of the current contents. -/
def read32 (m : Mem) (a : Nat) : Nat :=
  ((readByte m a * 256 + readByte m (a + 1)) * 256 + readByte m (a + 2)) * 256
    + readByte m (a + 3)

/-- get_original_dword: big-endian 32-bit read of the pre-patch contents. -/
def readOrig32 (m : Mem) (a : Nat) : Nat :=
  ((readByteOrig m a * 256 + readByteOrig m (a + 1)) * 256 + readByteOrig m (a + 2)) * 256
    + readByteOrig m (a + 3)

/-- patch_word: big-endian 16-bit write (the low 16 bits of the value). -/
def write16 (m : Mem) (a v : Nat) : Mem :=
  writeByte (writeByte m a (v / 256)) (a + 1) v

/-- patch_dword: big-endian 32-bit write (the low 32 bits of the value). -/
def write32 (m : Mem) (a v : Nat) : Mem :=
  writeByte (writeByte (writeByte (writeByte m a (v / 16777216)) (a + 1) (v / 65536))
    (a + 2) (v / 256)) (a + 3) v

/-- Build a concrete memory from an association list of byte values
(unlisted addresses hold zero); current and original contents agree. -/
def memOfList (l : List (Nat × Nat)) : Mem :=
  { orig := fun a => (((l.find? (fun p => p.1 == a)).map (fun p => p.2)).getD 0),
    cur := fun a => (((l.find? (fun p => p.1 == a)).map (fun p => p.2)).getD 0) }

/- PowerPC64 relocation type codes used by the loader. -/

def R_PPC64_NONE : Nat := 0
def R_PPC64_ADDR32 : Nat := 1
def R_PPC64_ADDR16_LO : Nat := 4
def R_PPC64_ADDR16_HA : Nat := 6
def R_PPC64_REL24 : Nat := 10
def R_PPC64_TOC16 : Nat := 47
def R_PPC64_TOC16_DS : Nat := 63
def R_PPC64_TLSGD : Nat := 107

/- ELF constants used by the loader. -/

def SHT_RELA : Nat := 4
def SHF_ALLOC : Nat := 2
def SHN_ABS : Nat := 0xfff1
def PT_SCE_PPURELA : Nat := 0x700000a4
def PT_SCE_SEGSYM : Nat := 0x700000a8

/-- An Elf64_Rela entry, with fields already byte-swapped (the source
swaps each field once before reading it).  sizeof(Elf64_Rela) = 24. -/
structure Rela where
  r_offset : Nat
  r_info : Nat
  r_addend : Nat
deriving DecidableEq

/-- ELF64_R_TYPE: low 32 bits of r_info. -/
def relaType (r : Rela) : Nat := r.r_info % M32

/-- ELF64_R_SYM: high 32 bits of r_info. -/
def relaSym (r : Rela) : Nat := r.r_info / M32

/-- An ELF symbol after swapSymbols has byte-order-normalized its fields. -/
structure ElfSym where
  st_name : Nat
  st_value : Nat
  st_size : Nat
  st_shndx : Nat
deriving DecidableEq

/-- An ELF section header record as the elf_reader collaborator hands it
to the loader; sh_namestr is the name resolved through the string table
and relas is the section content reinterpreted as Elf64_Rela entries
(meaningful for SHT_RELA sections). -/
structure ElfSection where
  sh_namestr : String
  sh_type : Nat
  sh_flags : Nat
  sh_addr : Nat
  sh_size : Nat
  sh_info : Nat
  relas : List Rela
deriving DecidableEq

/-- An ELF program header record; relas is the segment content
reinterpreted as Elf64_Rela entries (meaningful for PT_SCE_PPURELA). -/
structure ElfSegment where
  p_type : Nat
  p_flags : Nat
  p_vaddr : Nat
  p_paddr : Nat
  p_offset : Nat
  p_filesz : Nat
  p_memsz : Nat
  relas : List Rela
deriving DecidableEq

/-- Per-entry outcome of the relocation walks.  The skipped constructors
are the non-fatal continue branches of the source; oobRead marks an
entry for which the source indexes past the end of the symbol, section
or segment table (undefined behavior in the C++, certainly not a skip);
apply carries the (type, target address, value address) triple handed to
cell_loader::applyRelocation, before the relocation base is added. -/
inductive RelOutcome where
  | skippedNone
  | skippedInvalidType
  | skippedBadSym
  | skippedBadShndx
  | oobRead
  | apply (type addr saddr : Nat)
deriving DecidableEq

/-- cell_loader::applyRelocation.  gp is the current m_gpValue,
relocAddr is m_relocAddr; addr and saddr are uint32 parameters and are
both offset by the relocation base on entry.  0xfc000003 is the uint32
complement of 0x03fffffc and 0xffff0003 the uint32 complement of
0xfffc, written out as the source computes them on uint32. -/
def applyRelocation (gp relocAddr type addr0 saddr0 : Nat) (m : Mem) : Mem :=
  let addr := (addr0 + relocAddr) % M32
  let saddr := (saddr0 + relocAddr) % M32
  if type = R_PPC64_ADDR32 then
    write32 m addr saddr
  else if type = R_PPC64_ADDR16_LO then
    write16 m addr (saddr &&& 0xffff)
  else if type = R_PPC64_ADDR16_HA then
    write16 m addr ((saddr + 0x8000) % M32 / 65536 &&& 0xffff)
  else if type = R_PPC64_REL24 then
    write32 m addr
      (readOrig32 m addr &&& 0xfc000003 ||| sub32 saddr addr &&& 0x3fffffc)
  else if type = R_PPC64_TOC16 then
    write16 m addr (sub32 saddr gp)
  else if type = R_PPC64_TOC16_DS then
    write16 m addr
      (read16 m addr &&& 0xffff0003 ||| sub32 saddr gp &&& 0xfffc)
  else if type = R_PPC64_TLSGD then
    write32 m addr gp
  else
    m

/-- One entry of cell_loader::applySectionRelocations, for a SHT_RELA
section whose target section sections[sh_info] has address targAddr.
Mirrors the source checks in order: R_PPC64_NONE, type above TLSGD,
symbol index strictly above the symbol count, symbol section index
strictly above the section count unless SHN_ABS; then the address
computation, on uint32. -/
def sectionRelOutcome (sections : List ElfSection) (symbols : List ElfSym)
    (targAddr : Nat) (r : Rela) : RelOutcome :=
  if relaType r = R_PPC64_NONE then .skippedNone
  else if R_PPC64_TLSGD < relaType r then .skippedInvalidType
  else if symbols.length < relaSym r then .skippedBadSym
  else
    match symbols.get? (relaSym r) with
    | none => .oobRead
    | some s =>
      if sections.length < s.st_shndx ∧ s.st_shndx ≠ SHN_ABS then .skippedBadShndx
      else if s.st_shndx = SHN_ABS then
        .apply (relaType r) ((targAddr + r.r_offset) % M32)
          ((s.st_value % M32 + s.st_value + r.r_addend) % M32)
      else
        match sections.get? s.st_shndx with
        | none => .oobRead
        | some symsec =>
          .apply (relaType r) ((targAddr + r.r_offset) % M32)
            ((symsec.sh_addr % M32 + s.st_value + r.r_addend) % M32)

/-- One entry of cell_loader::applySegmentRelocations: the symbol field
packs a patch-segment index (low byte) and a symbol-segment index (bits
8..30), 0xFF meaning absolute zero; there is no bounds validation of
either index against the segment table in the source. -/
def segmentRelOutcome (segments : List ElfSegment) (r : Rela) : RelOutcome :=
  if relaType r = R_PPC64_NONE then .skippedNone
  else
    let patchseg := relaSym r &&& 0xff
    let symseg := (relaSym r &&& 0x7fffff00) / 256
    let addrOpt : Option Nat :=
      if patchseg = 0xff then some 0
      else (segments.get? patchseg).map (fun s => (s.p_vaddr + r.r_offset) % M32)
    let saddrOpt : Option Nat :=
      if symseg = 0xff then some 0
      else (segments.get? symseg).map (fun s => (s.p_vaddr + r.r_addend) % M32)
    match addrOpt, saddrOpt with
    | some a, some sv => .apply (relaType r) a sv
    | _, _ => .oobRead

/-- The inputs of cell_loader::apply for a relocatable module (PRX),
as provided by the elf_reader collaborator: program headers, section
headers, the byte-swapped symbol table, the relocation base and the
address space after applySegments has materialized the segments. -/
structure PrxInput where
  segments : List ElfSegment
  sections : List ElfSection
  symbols : List ElfSym
  relocAddr : Nat
  mem : Mem

/-- The 0.85-PRX detection of cell_loader::apply: a PT_SCE_SEGSYM
program header is present. -/
def hasSegSym (b : PrxInput) : Bool :=
  b.segments.any (fun s => s.p_type == PT_SCE_SEGSYM)

/-- getSectionByName for the literal name .toc. -/
def findToc (b : PrxInput) : Option ElfSection :=
  b.sections.find? (fun s => s.sh_namestr == ".toc")

/-- The m_gpValue assignment that happens before applyRelocations in
cell_loader::apply: only in SectionBased mode (segment-symbol marker
present), and only when a section named .toc exists.  none models the
member staying unassigned. -/
def prxGp0 (b : PrxInput) : Option Nat :=
  if hasSegSym b then
    (findToc b).map (fun s => (s.sh_addr + b.relocAddr) % M32)
  else none

/-- cell_loader::applySectionRelocations: every SHT_RELA section whose
target section sections[sh_info] is allocatable contributes sh_size /
sizeof(Elf64_Rela) entries.  The source indexes sections[sh_info]
without a bounds check; an out-of-range sh_info is undefined behavior
there and is modeled as contributing no entries. -/
def sectionOutcomes (b : PrxInput) : List RelOutcome :=
  (b.sections.map (fun sec =>
    if sec.sh_type = SHT_RELA then
      match b.sections.get? sec.sh_info with
      | none => []
      | some targ =>
        if targ.sh_flags &&& SHF_ALLOC ≠ 0 then
          (sec.relas.take (sec.sh_size / 24)).map
            (sectionRelOutcome b.sections b.symbols targ.sh_addr)
        else []
    else [])).flatten

/-- cell_loader::applySegmentRelocations: only the first PT_SCE_PPURELA
segment is walked (the loop breaks after it), over p_filesz /
sizeof(Elf64_Rela) entries. -/
def segmentOutcomes (b : PrxInput) : List RelOutcome :=
  match b.segments.find? (fun s => s.p_type == PT_SCE_PPURELA) with
  | none => []
  | some seg => (seg.relas.take (seg.p_filesz / 24)).map (segmentRelOutcome b.segments)

/-- cell_loader::applyRelocations: section based when the segment-symbol
marker is present, segment based otherwise. -/
def prxOutcomes (b : PrxInput) : List RelOutcome :=
  if hasSegSym b then sectionOutcomes b else segmentOutcomes b

/-- Run the relocation outcomes against the address space.  gp is the
m_gpValue state during the walk: when it is still unassigned the C++
member holds an arbitrary value, made explicit here as gpInit.  An
oobRead outcome is undefined behavior in the source; it is modeled as
leaving memory unchanged. -/
def runOutcomes (gpInit relocAddr : Nat) (gp : Option Nat)
    (outs : List RelOutcome) (m : Mem) : Mem :=
  outs.foldl (fun mm o =>
    match o with
    | .apply t a s => applyRelocation (gp.getD gpInit) relocAddr t a s mm
    | _ => mm) m

/-- The address space after cell_loader::applyRelocations. -/
def prxMemAfter (gpInit : Nat) (b : PrxInput) : Mem :=
  runOutcomes gpInit b.relocAddr (prxGp0 b) (prxOutcomes b) b.mem

/-- The module-info address computed from the first loadable segment:
(p_vaddr + m_relocAddr) + (p_paddr - p_offset), on ea_t.  The source
indexes getSegments()[0] without an emptiness check. -/
def moduleInfoEa (b : PrxInput) : Nat :=
  match b.segments.head? with
  | some s => ((s.p_vaddr + b.relocAddr) + sub64 s.p_paddr s.p_offset) % M64
  | none => 0

/-- Offset of the gp_value field inside _scemoduleinfo_ppu32: the common
part is modattribute (2) + modversion (2) + modname (27) + terminal (1)
= 32 bytes, exactly as declareStructures lays it out. -/
def gpValueOff : Nat := 32

/-- The m_gpValue state after the whole PRX branch of cell_loader::apply:
in SectionBased mode it is whatever the pre-relocation .toc lookup
produced (possibly still unassigned); otherwise it is read from the
gp_value field of the module-info structure, out of the already
relocated address space. -/
def prxFinalGp (gpInit : Nat) (b : PrxInput) : Option Nat :=
  if hasSegSym b then prxGp0 b
  else some (read32 (prxMemAfter gpInit b) ((moduleInfoEa b + gpValueOff) % M64))

/-- One applyRelocation call as an event: the relocation type and the
m_gpValue assignment state at the moment of the call. -/
structure RelEv where
  rtype : Nat
  gpAt : Option Nat
deriving DecidableEq

/-- The sequence of applyRelocation calls made while loading a PRX, each
tagged with the gp state in force at that moment (the gp state does not
change during applyRelocations; the module-info read for non-marker
modules happens only after the walk). -/
def prxRelocEvents (b : PrxInput) : List RelEv :=
  (prxOutcomes b).filterMap (fun o =>
    match o with
    | .apply t _ _ => some { rtype := t, gpAt := prxGp0 b }
    | _ => none)

/-- One entry of the NID name database: a numeric id (the parsed id
attribute) and the symbol name it stands for. -/
structure DbEntry where
  id : Nat
  ename : String
deriving DecidableEq

/-- One library group of the NID name database. -/
structure DbGroup where
  gname : String
  entries : List DbEntry
deriving DecidableEq

/-- The pre-parsed hierarchical name database (library groups in
document order). -/
def Db : Type := List DbGroup

/-- cell_loader::getNameFromDatabase: scan the groups in order; in every
group whose name matches the library, scan the entries in order for a
matching id; the first hit anywhere wins (a matched group without the
id does not stop the outer scan). -/
def getNameFromDatabase (db : Db) (library : String) (nid : Nat) : Option String :=
  db.findSome? (fun g =>
    if g.gname = library then
      g.entries.findSome? (fun e => if e.id = nid then some e.ename else none)
    else none)

/-- The annotation requests the walkers issue to the IDA host. -/
inductive Act where
  | forceName (addr : Nat) (name : String)
  | setCmt (addr : Nat) (text : String)
  | createStruct (addr size : Nat) (tid : String)
  | createDword (addr : Nat)
  | makeProc (addr : Nat)
  | importSym (lib : String) (addr : Nat) (name : String)
deriving DecidableEq

/-- sizeof(_scelibent_ppu32): 16-byte common part + 3 dword pointers. -/
def scelibent_size : Nat := 28

/-- sizeof(_scelibstub_ppu32): 16-byte common part + 7 dword pointers. -/
def scelibstub_size : Nat := 44

/-- One i of the export entry loop of cell_loader::loadExports; nfunc
decides the extra function treatment, libNamePtr gates all naming and
the database lookup, and both table slots are always typed as dwords. -/
def exportSlotActs (db : Db) (m : Mem) (libNamePtr : Nat) (libName : String)
    (nidTable addTable nfunc i : Nat) : List Act :=
  let nidOffset := nidTable + i * 4
  let addOffset := addTable + i * 4
  let nid := read32 m nidOffset
  let add := read32 m addOffset
  (if libNamePtr ≠ 0 then
    let addToc := read32 m add
    (match getNameFromDatabase db libName nid with
     | some n =>
       [Act.setCmt nidOffset n, Act.forceName add n]
         ++ (if i < nfunc then [Act.forceName addToc ("." ++ n)] else [])
     | none => [])
      ++ (if i < nfunc then [Act.makeProc addToc] else [])
   else [])
    ++ [Act.createDword nidOffset, Act.createDword addOffset]

/-- One entry of cell_loader::loadExports at address ea: entries whose
structsize byte is not sizeof(_scelibent_ppu32) are logged and skipped;
otherwise the entry is typed, the name/table slots are named (with the
fixed no-name labels when libname is null) and nfunc + nvar + ntlsvar
slots are processed when both tables are non-null.  strAt is the host
string-reading collaborator (get_strlit_contents). -/
def exportEntryActs (db : Db) (strAt : Nat → String) (m : Mem) (ea : Nat) : List Act :=
  let structsize := readByte m ea
  let nfunc := read16 m (ea + 6)
  let nvar := read16 m (ea + 8)
  let ntlsvar := read16 m (ea + 10)
  let count := nfunc + nvar + ntlsvar
  if structsize = scelibent_size then
    let libNamePtr := read32 m (ea + 16)
    let nidTable := read32 m (ea + 20)
    let addTable := read32 m (ea + 24)
    let libName := strAt libNamePtr
    [Act.createStruct ea scelibent_size "_scelibent_ppu32"]
      ++ (if libNamePtr = 0 then
            [Act.forceName nidTable "_NONAMEnid_table",
             Act.forceName addTable "_NONAMEentry_table"]
          else
            [Act.forceName libNamePtr ("_" ++ libName ++ "_str"),
             Act.forceName nidTable ("__" ++ libName ++ "_Functions_NID_table"),
             Act.forceName addTable ("__" ++ libName ++ "_Functions_table")])
      ++ (if nidTable ≠ 0 ∧ addTable ≠ 0 then
            (List.range count).map
              (exportSlotActs db m libNamePtr libName nidTable addTable nfunc)
              |>.flatten
          else [])
  else []

/-- One i of the imported-function loop of cell_loader::loadImports: a
resolved NID comments the NID slot, names the stub slot name.stub_entry,
names the code address (the dword stored at the stub slot) .name with a
dot prefix and registers the import for module linkage; both slots are
always typed as dwords. -/
def importFuncSlot (db : Db) (m : Mem) (libName : String)
    (funcNidTable funcTable i : Nat) : List Act :=
  let nidOffset := funcNidTable + i * 4
  let funcOffset := funcTable + i * 4
  let nid := read32 m nidOffset
  let func := read32 m funcOffset
  (match getNameFromDatabase db libName nid with
   | some n =>
     [Act.setCmt nidOffset n,
      Act.forceName funcOffset (n ++ ".stub_entry"),
      Act.forceName func ("." ++ n),
      Act.importSym libName func ("." ++ n)]
   | none => [])
    ++ [Act.createDword nidOffset, Act.createDword funcOffset]

/-- One i of the imported-variable loop of cell_loader::loadImports. -/
def importVarSlot (db : Db) (m : Mem) (libName : String)
    (varNidTable varTable i : Nat) : List Act :=
  let nidOffset := varNidTable + i * 4
  let varOffset := varTable + i * 4
  let nid := read32 m nidOffset
  (match getNameFromDatabase db libName nid with
   | some n => [Act.setCmt nidOffset n, Act.forceName varOffset n]
   | none => [])
    ++ [Act.createDword nidOffset, Act.createDword varOffset]

/-- One i of the imported-TLS-variable loop of cell_loader::loadImports
(same shape as the variable loop). -/
def importTlsSlot (db : Db) (m : Mem) (libName : String)
    (tlsNidTable tlsTable i : Nat) : List Act :=
  let nidOffset := tlsNidTable + i * 4
  let tlsOffset := tlsTable + i * 4
  let nid := read32 m nidOffset
  (match getNameFromDatabase db libName nid with
   | some n => [Act.setCmt nidOffset n, Act.forceName tlsOffset n]
   | none => [])
    ++ [Act.createDword nidOffset, Act.createDword tlsOffset]

/-- One entry of cell_loader::loadImports at address ea.  The counts are
read before the structsize test; entries of unknown structsize are
logged and skipped.  The function loop runs over nFunc slots and the
variable loop over nVar slots; the TLS loop in the source is also
bounded by nVar (line 602 of the loader reads i < nVar), the nTlsVar
count is read but never used. -/
def importEntryActs (db : Db) (strAt : Nat → String) (m : Mem) (ea : Nat) : List Act :=
  let structsize := readByte m ea
  let nFunc := read16 m (ea + 6)
  let nVar := read16 m (ea + 8)
  if structsize = scelibstub_size then
    let libNamePtr := read32 m (ea + 16)
    let funcNidTable := read32 m (ea + 20)
    let funcTable := read32 m (ea + 24)
    let varNidTable := read32 m (ea + 28)
    let varTable := read32 m (ea + 32)
    let tlsNidTable := read32 m (ea + 36)
    let tlsTable := read32 m (ea + 40)
    let libName := strAt libNamePtr
    [Act.createStruct ea scelibstub_size "_scelibstub_ppu32",
     Act.forceName ea ("_" ++ libName ++ "_0001_stub_head"),
     Act.forceName libNamePtr ("_" ++ libName ++ "_stub_str"),
     Act.forceName (sub64 libNamePtr 4) ("_sce_package_version_" ++ libName)]
      ++ (if funcNidTable ≠ 0 ∧ funcTable ≠ 0 then
            (List.range nFunc).map (importFuncSlot db m libName funcNidTable funcTable)
              |>.flatten
          else [])
      ++ (if varNidTable ≠ 0 ∧ varTable ≠ 0 then
            (List.range nVar).map (importVarSlot db m libName varNidTable varTable)
              |>.flatten
          else [])
      ++ (if tlsNidTable ≠ 0 ∧ tlsTable ≠ 0 then
            (List.range nVar).map (importTlsSlot db m libName tlsNidTable tlsTable)
              |>.flatten
          else [])
  else []

/-- The addresses at which the export/import table loop of loadExports
and loadImports begins processing an entry: starting at ea, while ea is
below endEa, an entry starts at ea and the loop advances by the entry
byte at ea (the self-reported structure size).  fuel bounds the
recursion; none means the loop did not finish within fuel steps. -/
def entWalk (m : Mem) (endEa : Nat) : Nat → Nat → Option (List Nat)
  | 0, ea => if ea < endEa then none else some []
  | fuel + 1, ea =>
    if ea < endEa then
      (entWalk m endEa fuel (ea + readByte m ea)).map (fun l => ea :: l)
    else some []

/-- The actions of the loadExports entry loop, fuel-bounded like
entWalk. -/
def expWalkActs (db : Db) (strAt : Nat → String) (m : Mem) (endEa : Nat) :
    Nat → Nat → List Act
  | 0, _ => []
  | fuel + 1, ea =>
    if ea < endEa then
      exportEntryActs db strAt m ea
        ++ expWalkActs db strAt m endEa fuel (ea + readByte m ea)
    else []

/-- The actions of the loadImports entry loop, fuel-bounded like
entWalk. -/
def impWalkActs (db : Db) (strAt : Nat → String) (m : Mem) (endEa : Nat) :
    Nat → Nat → List Act
  | 0, _ => []
  | fuel + 1, ea =>
    if ea < endEa then
      importEntryActs db strAt m ea
        ++ impWalkActs db strAt m endEa fuel (ea + readByte m ea)
    else []

/-- cell_loader::loadExports: the boundary sentinels are named before
the loop, at entTop - 4 (uint32 subtraction) and at entEnd, then the
entry loop runs. -/
def loadExportsActs (db : Db) (strAt : Nat → String) (m : Mem)
    (fuel entTop entEnd : Nat) : List Act :=
  Act.forceName (sub32 entTop 4) "__begin_of_section_lib_ent"
    :: Act.forceName entEnd "__end_of_section_lib_ent"
    :: expWalkActs db strAt m entEnd fuel entTop

/-- cell_loader::loadImports: the boundary sentinels are named before
the loop, at stubTop - 4 (uint32 subtraction) and at stubEnd, then the
entry loop runs. -/
def loadImportsActs (db : Db) (strAt : Nat → String) (m : Mem)
    (fuel stubTop stubEnd : Nat) : List Act :=
  Act.forceName (sub32 stubTop 4) "__begin_of_section_lib_stub"
    :: Act.forceName stubEnd "__end_of_section_lib_stub"
    :: impWalkActs db strAt m stubEnd fuel stubTop

/- Concrete inputs used by the counterexample and witness theorems. -/

/-- A memory whose bytes are all zero. -/
def zmem : Mem := memOfList []

/-- A string-reading collaborator returning the empty string everywhere. -/
def emptyStr : Nat → String := fun _ => ""

/-- A relocation entry with symbol index 5 and type R_PPC64_ADDR32. -/
def rSym5 : Rela := { r_offset := 0, r_info := 5 * M32 + 1, r_addend := 0 }

/-- A one-segment SegmentBased module whose only relocation entry is a
TOC16 with both packed segment indices 0. -/
def b0 : PrxInput :=
  { segments := [{ p_type := PT_SCE_PPURELA, p_flags := 0, p_vaddr := 0x1000,
                   p_paddr := 0, p_offset := 0, p_filesz := 24, p_memsz := 24,
                   relas := [{ r_offset := 8, r_info := 47, r_addend := 0 }] }],
    sections := [], symbols := [], relocAddr := 0, mem := zmem }

/-- A SectionBased module (segment-symbol marker present) with no .toc
section, whose module-info gp_value field holds 0x2000: the module-info
address is 0x10000 + (0x30 - 0x10) = 0x10020, so gp_value sits at
0x10040. -/
def b2 : PrxInput :=
  { segments := [{ p_type := PT_SCE_SEGSYM, p_flags := 0, p_vaddr := 0x10000,
                   p_paddr := 0x30, p_offset := 0x10, p_filesz := 0, p_memsz := 0,
                   relas := [] }],
    sections := [], symbols := [], relocAddr := 0,
    mem := memOfList [(0x10042, 0x20)] }

/-- A SectionBased module with a .toc section at 0x1000 and one TOC16
entry in an allocatable-target SHT_RELA section. -/
def b1 : PrxInput :=
  { segments := [{ p_type := PT_SCE_SEGSYM, p_flags := 0, p_vaddr := 0,
                   p_paddr := 0, p_offset := 0, p_filesz := 0, p_memsz := 0,
                   relas := [] }],
    sections :=
      [{ sh_namestr := ".text", sh_type := 1, sh_flags := 6, sh_addr := 0x400,
         sh_size := 0, sh_info := 0, relas := [] },
       { sh_namestr := ".rela.text", sh_type := SHT_RELA, sh_flags := 0, sh_addr := 0,
         sh_size := 24, sh_info := 0,
         relas := [{ r_offset := 4, r_info := 47, r_addend := 0 }] },
       { sh_namestr := ".toc", sh_type := 1, sh_flags := 3, sh_addr := 0x1000,
         sh_size := 0, sh_info := 0, relas := [] }],
    symbols := [{ st_name := 0, st_value := 0x500, st_size := 0, st_shndx := SHN_ABS }],
    relocAddr := 0, mem := zmem }

/-- An import entry at 0x10 with nfunc = 0, nvar = 0, ntlsvar = 2 and
non-null TLS tables at 0x300 / 0x400 (all other pointers null). -/
def c6mem : Mem := memOfList [(0x10, 44), (0x1b, 2), (0x36, 3), (0x3a, 4)]

/-- A one-library database resolving NID 0xdead to cellFsOpen. -/
def c9db : Db := [{ gname := "libfs", entries := [{ id := 0xdead, ename := "cellFsOpen" }] }]

/-- NID table at 0x100 holding 0xdead, stub table at 0x200 holding
0x5000. -/
def c9mem : Mem := memOfList [(0x102, 0xde), (0x103, 0xad), (0x202, 0x50)]

/-- A memory whose bytes are all 28 (a well-formed export structure
size, so every walk stride is 28). -/
def c7wm : Mem := { orig := fun _ => 28, cur := fun _ => 28 }

/- Counterexample and code-bug evidence theorems. -/

/-- C1 counterexample: b0 is a relocatable module (SegmentBased: no
segment-symbol marker) whose single TOC16 relocation is applied while
m_gpValue is still unassigned (gpAt = none): the global pointer of a
SegmentBased module is only read from module info after
applyRelocations has run. -/
theorem c1_toc_applied_with_unresolved_gp_cex :
    hasSegSym b0 = false
      ∧ prxRelocEvents b0 = [{ rtype := R_PPC64_TOC16, gpAt := none }] := by
  decide

/-- C2 counterexample: b2 is SectionBased (marker present) with no .toc
section, and its module-info structure carries gp_value = 0x2000 at the
located address, yet the loader leaves the global pointer unassigned
instead of falling through to that field. -/
theorem c2_no_toc_no_fallback_cex :
    hasSegSym b2 = true ∧ findToc b2 = none
      ∧ read32 b2.mem ((moduleInfoEa b2 + gpValueOff) % M64) = 0x2000
      ∧ prxFinalGp 0 b2 = none := by
  decide

/-- C3 counterexample: a segment-based relocation entry whose
patch-segment index 5 lies outside the one-entry segment table is not
skipped; the source indexes segments[5] without any bounds check
(an out-of-bounds read), so the entry neither skips nor resolves
cleanly. -/
theorem c3_segment_index_unchecked_cex :
    segmentRelOutcome b0.segments rSym5 = RelOutcome.oobRead := by
  decide

/-- C6 code-bug evidence: an import entry of the expected structure size
whose counts are nfunc = 0, nvar = 0, ntlsvar = 2, with non-null TLS
tables at 0x300 / 0x400.  The entry is processed (its structure is
created), yet no TLS slot is materialized, because the TLS loop of
loadImports is bounded by nvar instead of ntlsvar. -/
theorem c6_tls_loop_bounded_by_nvar :
    read16 c6mem (0x10 + 10) = 2
      ∧ read32 c6mem (0x10 + 36) = 0x300
      ∧ read32 c6mem (0x10 + 40) = 0x400
      ∧ Act.createStruct 0x10 scelibstub_size "_scelibstub_ppu32"
          ∈ importEntryActs [] emptyStr c6mem 0x10
      ∧ Act.createDword 0x300 ∉ importEntryActs [] emptyStr c6mem 0x10 := by
  decide

/-- C7 counterexample: with a self-reported entry size of zero at the
range start the walk never advances and never terminates, for any
amount of fuel. -/
theorem c7_zero_stride_diverges_cex :
    readByte zmem 0x100 = 0
      ∧ ¬ ∃ fuel l, entWalk zmem 0x120 fuel 0x100 = some l := by
  constructor
  · rfl
  · rintro ⟨fuel, l, h⟩
    have haux : ∀ f, entWalk zmem 0x120 f 0x100 = none := by
      intro f
      induction f with
      | zero => simp [entWalk]
      | succ n ih =>
        simp only [entWalk]
        rw [if_pos (by norm_num)]
        have hb : readByte zmem 0x100 = 0 := rfl
        rw [hb, Nat.add_zero, ih]
        rfl
    rw [haux fuel] at h
    exact Option.noConfusion h

/-- C8 counterexample: for an export range starting at 0x100 the begin
sentinel is assigned to 0xfc (four bytes before the range start), not
to 0xff, the byte immediately before the range start; the walked range
here is empty and both sentinels are still the only actions. -/
theorem c8_marker_position_cex :
    loadExportsActs [] emptyStr zmem 4 0x100 0x100 =
        [Act.forceName 0xfc "__begin_of_section_lib_ent",
         Act.forceName 0x100 "__end_of_section_lib_ent"]
      ∧ Act.forceName 0xff "__begin_of_section_lib_ent"
          ∉ loadExportsActs [] emptyStr zmem 4 0x100 0x100 := by
  decide

/-- C9 counterexample: the import function entry whose NID resolves to
cellFsOpen names the code address .cellFsOpen (dot-prefixed), not
cellFsOpen as the claim states. -/
theorem c9_code_address_dot_prefixed_cex :
    Act.forceName 0x5000 "cellFsOpen" ∉ importFuncSlot c9db c9mem "libfs" 0x100 0x200 0
      ∧ Act.forceName 0x5000 ".cellFsOpen" ∈ importFuncSlot c9db c9mem "libfs" 0x100 0x200 0 := by
  decide

/- Helper lemmas about the memory model and bit masks. -/

/-- Reading a byte just written returns it reduced modulo 256; other
addresses are unaffected. -/
theorem readByte_writeByte (m : Mem) (a b v : Nat) :
    readByte (writeByte m a v) b = if b = a then v % 256 else readByte m b := by
  by_cases h : b = a
  · subst h
    show (if b = b then v % 256 else m.cur b) % 256 = if b = b then v % 256 else readByte m b
    rw [if_pos rfl, if_pos rfl]
    omega
  · show (if b = a then v % 256 else m.cur b) % 256 = if b = a then v % 256 else readByte m b
    rw [if_neg h, if_neg h]
    rfl

/-- patch writes do not change the original contents. -/
theorem readOrig32_write32 (m : Mem) (a b v : Nat) :
    readOrig32 (write32 m a v) b = readOrig32 m b := rfl

/-- A 32-bit read of a just-written 32-bit value returns the value
reduced modulo 2^32. -/
theorem read32_write32 (m : Mem) (a v : Nat) :
    read32 (write32 m a v) a = v % M32 := by
  have h0 : readByte (write32 m a v) a = v / 16777216 % 256 := by
    simp [write32, readByte_writeByte]
  have h1 : readByte (write32 m a v) (a + 1) = v / 65536 % 256 := by
    simp [write32, readByte_writeByte]
  have h2 : readByte (write32 m a v) (a + 2) = v / 256 % 256 := by
    simp [write32, readByte_writeByte]
  have h3 : readByte (write32 m a v) (a + 3) = v % 256 := by
    simp [write32, readByte_writeByte]
  rw [read32, h0, h1, h2, h3]
  simp only [M32]
  omega

/-- Any 32-bit read is below 2^32. -/
theorem readOrig32_lt (m : Mem) (a : Nat) : readOrig32 m a < M32 := by
  have b0 : readByteOrig m a < 256 := Nat.mod_lt _ (by omega)
  have b1 : readByteOrig m (a + 1) < 256 := Nat.mod_lt _ (by omega)
  have b2 : readByteOrig m (a + 2) < 256 := Nat.mod_lt _ (by omega)
  have b3 : readByteOrig m (a + 3) < 256 := Nat.mod_lt _ (by omega)
  rw [readOrig32, M32]
  omega

/-- Conjunction with the first of two disjoint masks recovers the first
component of a two-masked disjunction. -/
theorem land_lor_land_disjoint_left (x y m1 m2 : Nat) (h : m1 &&& m2 = 0) :
    (x &&& m1 ||| y &&& m2) &&& m1 = x &&& m1 := by
  apply Nat.eq_of_testBit_eq
  intro i
  have hd : (m1 &&& m2).testBit i = false := by rw [h]; exact Nat.zero_testBit i
  rw [Nat.testBit_land] at hd
  simp only [Nat.testBit_land, Nat.testBit_lor]
  cases h1 : m1.testBit i <;> cases h2 : m2.testBit i <;> simp_all

/-- Conjunction with the second of two disjoint masks recovers the
second component of a two-masked disjunction. -/
theorem land_lor_land_disjoint_right (x y m1 m2 : Nat) (h : m1 &&& m2 = 0) :
    (x &&& m1 ||| y &&& m2) &&& m2 = y &&& m2 := by
  apply Nat.eq_of_testBit_eq
  intro i
  have hd : (m1 &&& m2).testBit i = false := by rw [h]; exact Nat.zero_testBit i
  rw [Nat.testBit_land] at hd
  simp only [Nat.testBit_land, Nat.testBit_lor]
  cases h1 : m1.testBit i <;> cases h2 : m2.testBit i <;> simp_all

/- Claim theorems. -/

/-- C4: for every relocation type code above the valid range end
R_PPC64_TLSGD, applyRelocation leaves the address space unchanged (no
write is performed), and the section-based walk classifies the entry as
an invalid-type skip and moves on. -/
theorem c4_invalid_type_no_write (type : Nat) (h : R_PPC64_TLSGD < type) :
    (∀ gp relocAddr a s m, applyRelocation gp relocAddr type a s m = m)
      ∧ (∀ sections symbols targAddr r, relaType r = type →
          sectionRelOutcome sections symbols targAddr r = RelOutcome.skippedInvalidType) := by
  have h107 : 107 < type := by simpa [R_PPC64_TLSGD] using h
  constructor
  · intro gp relocAddr a s m
    simp only [applyRelocation, R_PPC64_ADDR32, R_PPC64_ADDR16_LO, R_PPC64_ADDR16_HA,
      R_PPC64_REL24, R_PPC64_TOC16, R_PPC64_TOC16_DS, R_PPC64_TLSGD]
    rw [if_neg (by omega), if_neg (by omega), if_neg (by omega), if_neg (by omega),
      if_neg (by omega), if_neg (by omega), if_neg (by omega)]
  · intro sections symbols targAddr r hr
    simp only [sectionRelOutcome, hr, R_PPC64_NONE, R_PPC64_TLSGD]
    rw [if_neg (by omega), if_pos h107]

/-- C4 witness: the out-of-range type 108 neither writes through
applyRelocation nor survives the section-based type check. -/
theorem c4_invalid_type_no_write_witness :
    applyRelocation 0 0 108 0 0 zmem = zmem
      ∧ sectionRelOutcome [] [] 0 { r_offset := 0, r_info := 108, r_addend := 0 }
          = RelOutcome.skippedInvalidType :=
  ⟨(c4_invalid_type_no_write 108 (by decide)).1 0 0 0 0 zmem,
   (c4_invalid_type_no_write 108 (by decide)).2 [] [] 0
     { r_offset := 0, r_info := 108, r_addend := 0 } (by decide)⟩

/-- C5: a REL24 application writes, at the target address, a word that
agrees with the original pre-relocation word on every bit outside the
displacement mask 0x03fffffc, and whose displacement bits are exactly
(value address minus target address) masked to the field; the read
starts from the original unrelocated instruction (get_original_dword). -/
theorem c5_rel24_preserves_opcode_bits (m : Mem) (gp relocAddr a0 s0 : Nat) :
    read32 (applyRelocation gp relocAddr R_PPC64_REL24 a0 s0 m) ((a0 + relocAddr) % M32)
          &&& 0xfc000003
        = readOrig32 m ((a0 + relocAddr) % M32) &&& 0xfc000003
      ∧ read32 (applyRelocation gp relocAddr R_PPC64_REL24 a0 s0 m) ((a0 + relocAddr) % M32)
          &&& 0x3fffffc
        = sub32 ((s0 + relocAddr) % M32) ((a0 + relocAddr) % M32) &&& 0x3fffffc := by
  have happ : applyRelocation gp relocAddr R_PPC64_REL24 a0 s0 m =
      write32 m ((a0 + relocAddr) % M32)
        (readOrig32 m ((a0 + relocAddr) % M32) &&& 0xfc000003
          ||| sub32 ((s0 + relocAddr) % M32) ((a0 + relocAddr) % M32) &&& 0x3fffffc) := by
    simp [applyRelocation, R_PPC64_ADDR32, R_PPC64_ADDR16_LO, R_PPC64_ADDR16_HA,
      R_PPC64_REL24]
  have hlt : (readOrig32 m ((a0 + relocAddr) % M32) &&& 0xfc000003
      ||| sub32 ((s0 + relocAddr) % M32) ((a0 + relocAddr) % M32) &&& 0x3fffffc) < M32 := by
    have hm : M32 = 2 ^ 32 := by decide
    rw [hm]
    apply Nat.or_lt_two_pow
    · have h2 := readOrig32_lt m ((a0 + relocAddr) % M32)
      rw [hm] at h2
      exact Nat.lt_of_le_of_lt Nat.and_le_left h2
    · exact Nat.lt_of_le_of_lt Nat.and_le_right (by norm_num)
  rw [happ, read32_write32, Nat.mod_eq_of_lt hlt]
  exact ⟨land_lor_land_disjoint_left _ _ _ _ (by decide),
         land_lor_land_disjoint_right _ _ _ _ (by decide)⟩

/-- C10: a section-based entry whose symbol has section index SHN_ABS
and which passes the validation checks hands the shared apply routine a
value address equal to twice st_value plus the addend (st_value serves
as the base address and is added again as the offset), on uint32 and
before the relocation base is added. -/
theorem c10_abs_symbol_doubles_stvalue (sections : List ElfSection) (symbols : List ElfSym)
    (targAddr : Nat) (r : Rela) (s : ElfSym)
    (h0 : relaType r ≠ R_PPC64_NONE) (h1 : relaType r ≤ R_PPC64_TLSGD)
    (h2 : symbols.get? (relaSym r) = some s) (h3 : s.st_shndx = SHN_ABS) :
    sectionRelOutcome sections symbols targAddr r =
      RelOutcome.apply (relaType r) ((targAddr + r.r_offset) % M32)
        ((2 * s.st_value + r.r_addend) % M32) := by
  have hlen : relaSym r < symbols.length := by
    by_contra hc
    rw [List.get?_eq_none.mpr (by omega)] at h2
    exact Option.noConfusion h2
  have h0n : relaType r ≠ 0 := by simpa [R_PPC64_NONE] using h0
  have h1n : relaType r ≤ 107 := by simpa [R_PPC64_TLSGD] using h1
  simp only [sectionRelOutcome, R_PPC64_NONE, R_PPC64_TLSGD, h2]
  rw [if_neg h0n, if_neg (by omega), if_neg (by omega)]
  simp only [h3, SHN_ABS]
  rw [if_neg (by simp), if_pos trivial]
  congr 1
  simp only [M32]
  omega

/-- C10 witness: an absolute symbol with st_value 0x500 and addend 4
yields value address 2 * 0x500 + 4. -/
theorem c10_abs_symbol_doubles_stvalue_witness :
    sectionRelOutcome [] [{ st_name := 0, st_value := 0x500, st_size := 0, st_shndx := SHN_ABS }]
        0x100 { r_offset := 8, r_info := 1, r_addend := 4 } =
      RelOutcome.apply (relaType { r_offset := 8, r_info := 1, r_addend := 4 })
        ((0x100 + 8) % M32) ((2 * 0x500 + 4) % M32) :=
  c10_abs_symbol_doubles_stvalue []
    [{ st_name := 0, st_value := 0x500, st_size := 0, st_shndx := SHN_ABS }]
    0x100 { r_offset := 8, r_info := 1, r_addend := 4 }
    { st_name := 0, st_value := 0x500, st_size := 0, st_shndx := SHN_ABS }
    (by decide) (by decide) rfl rfl

/-- C3 (amended): in the section-based walk, a symbol index strictly
above the symbol count is skipped non-fatally, and a symbol section
index strictly above the section count that is not SHN_ABS is skipped
non-fatally; the walk continues with subsequent entries.  (An index
equal to the table length escapes the source checks, and segment-based
entries get no segment-index validation at all; see the
counterexample.) -/
theorem c3_section_index_validation (sections : List ElfSection) (symbols : List ElfSym)
    (targAddr : Nat) (r : Rela)
    (h0 : relaType r ≠ R_PPC64_NONE) (h1 : relaType r ≤ R_PPC64_TLSGD) :
    (symbols.length < relaSym r →
        sectionRelOutcome sections symbols targAddr r = RelOutcome.skippedBadSym)
      ∧ (∀ s, symbols.get? (relaSym r) = some s →
          sections.length < s.st_shndx → s.st_shndx ≠ SHN_ABS →
          sectionRelOutcome sections symbols targAddr r = RelOutcome.skippedBadShndx) := by
  have h0n : relaType r ≠ 0 := by simpa [R_PPC64_NONE] using h0
  have h1n : relaType r ≤ 107 := by simpa [R_PPC64_TLSGD] using h1
  constructor
  · intro hs
    simp only [sectionRelOutcome, R_PPC64_NONE, R_PPC64_TLSGD]
    rw [if_neg h0n, if_neg (by omega), if_pos hs]
  · intro s hget hsec habs
    have hlen : relaSym r < symbols.length := by
      by_contra hc
      rw [List.get?_eq_none.mpr (by omega)] at hget
      exact Option.noConfusion hget
    simp only [sectionRelOutcome, R_PPC64_NONE, R_PPC64_TLSGD, hget]
    rw [if_neg h0n, if_neg (by omega), if_neg (by omega), if_pos ⟨hsec, habs⟩]

/-- C3 witness: a symbol index 5 against an empty symbol table is a
non-fatal skip; a symbol section index 7 against an empty section table
is a non-fatal skip. -/
theorem c3_section_index_validation_witness :
    sectionRelOutcome [] [] 0 rSym5 = RelOutcome.skippedBadSym
      ∧ sectionRelOutcome [] [{ st_name := 0, st_value := 0, st_size := 0, st_shndx := 7 }]
          0 { r_offset := 0, r_info := 1, r_addend := 0 } = RelOutcome.skippedBadShndx :=
  ⟨(c3_section_index_validation [] [] 0 rSym5 (by decide) (by decide)).1 (by decide),
   (c3_section_index_validation [] [{ st_name := 0, st_value := 0, st_size := 0, st_shndx := 7 }]
       0 { r_offset := 0, r_info := 1, r_addend := 0 } (by decide) (by decide)).2
     { st_name := 0, st_value := 0, st_size := 0, st_shndx := 7 } rfl (by decide) (by decide)⟩

/-- C2 (amended): for a SectionBased module (segment-symbol marker
present) the final global pointer comes only from the .toc lookup: it
is that section address plus the relocation base when .toc exists, and
it stays unassigned when .toc is absent; the module-info gp_value
fall-through runs only for non-marker (SegmentBased) modules. -/
theorem c2_sectionbased_gp_from_toc_only (gpInit : Nat) (b : PrxInput)
    (h : hasSegSym b = true) :
    prxFinalGp gpInit b = (findToc b).map (fun s => (s.sh_addr + b.relocAddr) % M32) := by
  simp only [prxFinalGp, prxGp0, h, if_true]

/-- C2 witness: on the marker module b2 without a .toc section the
final global pointer is the unassigned .toc lookup image. -/
theorem c2_sectionbased_gp_from_toc_only_witness :
    prxFinalGp 0 b2 = (findToc b2).map (fun s => (s.sh_addr + b2.relocAddr) % M32) :=
  c2_sectionbased_gp_from_toc_only 0 b2 (by decide)

/-- C1 (amended): when the segment-symbol marker is present and a .toc
section exists, the global pointer is assigned before the relocation
walk, so every relocation application (in particular every TOC16 and
TOC16_DS) sees a resolved global pointer.  (Without those two
conditions the loader applies relocations before resolving the global
pointer; see the counterexample.) -/
theorem c1_gp_resolved_before_toc_relocs (b : PrxInput)
    (h1 : hasSegSym b = true) (h2 : (findToc b).isSome = true) :
    (prxRelocEvents b).all (fun ev => ev.gpAt.isSome) = true := by
  rw [List.all_eq_true]
  intro ev hev
  simp only [prxRelocEvents, List.mem_filterMap] at hev
  obtain ⟨o, _, ho⟩ := hev
  match o, ho with
  | RelOutcome.apply t a s, ho =>
    simp only [Option.some.injEq] at ho
    subst ho
    simp only [prxGp0, h1, if_true, Option.isSome_map]
    simpa using h2

/-- C1 witness: the SectionBased module b1 has the marker and a .toc
section, and its single TOC16 application sees a resolved global
pointer. -/
theorem c1_gp_resolved_before_toc_relocs_witness :
    hasSegSym b1 = true ∧ (findToc b1).isSome = true
      ∧ (prxRelocEvents b1).all (fun ev => ev.gpAt.isSome) = true :=
  ⟨by decide, by decide, c1_gp_resolved_before_toc_relocs b1 (by decide) (by decide)⟩

/-- C7 (amended): the export/import table walk never begins processing
an entry at or beyond the end address, and it terminates whenever every
self-reported entry size is non-zero, with fuel equal to the range
length; a zero size diverges (see the counterexample). -/
theorem c7_walk_bounded_and_terminates (m : Mem) (endEa : Nat)
    (h1 : ∀ a, 1 ≤ readByte m a) :
    ∀ fuel ea, endEa - ea ≤ fuel →
      ∃ l, entWalk m endEa fuel ea = some l
        ∧ l.all (fun x => decide (x < endEa)) = true := by
  intro fuel
  induction fuel with
  | zero =>
    intro ea h2
    refine ⟨[], ?_, rfl⟩
    simp only [entWalk]
    rw [if_neg (by omega)]
  | succ n ih =>
    intro ea h2
    by_cases hlt : ea < endEa
    · have hb := h1 ea
      obtain ⟨l, hl, hall⟩ := ih (ea + readByte m ea) (by omega)
      refine ⟨ea :: l, ?_, ?_⟩
      · simp only [entWalk]
        rw [if_pos hlt, hl]
        rfl
      · simp only [List.all_cons, hall, Bool.and_true]
        exact decide_eq_true hlt
    · refine ⟨[], ?_, rfl⟩
      simp only [entWalk]
      rw [if_neg hlt]

/-- C7 witness: over a memory whose every byte is 28 the walk of
[0x100, 0x120) terminates and visits only addresses below the end. -/
theorem c7_walk_bounded_and_terminates_witness :
    ∃ l, entWalk c7wm 0x120 0x20 0x100 = some l
      ∧ l.all (fun x => decide (x < 0x120)) = true :=
  c7_walk_bounded_and_terminates c7wm 0x120
    (fun a => by show (1 : Nat) ≤ 28 % 256; decide) 0x20 0x100 (by decide)

/-- C8 (amended): both table walks assign the begin sentinel to the
address four bytes before the range start (the preceding 4-byte slot)
and the end sentinel to the range end, unconditionally: for every
memory, database, fuel and range, including an empty or malformed
range, these two markers head the action sequence. -/
theorem c8_sentinel_markers_unconditional (db : Db) (strAt : Nat → String) (m : Mem)
    (fuel top endEa : Nat) :
    (loadExportsActs db strAt m fuel top endEa).take 2 =
        [Act.forceName (sub32 top 4) "__begin_of_section_lib_ent",
         Act.forceName endEa "__end_of_section_lib_ent"]
      ∧ (loadImportsActs db strAt m fuel top endEa).take 2 =
        [Act.forceName (sub32 top 4) "__begin_of_section_lib_stub",
         Act.forceName endEa "__end_of_section_lib_stub"] :=
  ⟨rfl, rfl⟩

/-- C9 (amended): an import function entry whose NID resolves to N gets
its stub slot named N.stub_entry and the code address stored there
named .N (dot-prefixed); an entry whose NID does not resolve emits no
names, but both its NID slot and its stub-address slot are still
created as 4-byte fields. -/
theorem c9_import_function_naming (db : Db) (m : Mem) (libName : String)
    (funcNidTable funcTable i : Nat) :
    (∀ n, getNameFromDatabase db libName (read32 m (funcNidTable + i * 4)) = some n →
        Act.forceName (funcTable + i * 4) (n ++ ".stub_entry")
            ∈ importFuncSlot db m libName funcNidTable funcTable i
          ∧ Act.forceName (read32 m (funcTable + i * 4)) ("." ++ n)
            ∈ importFuncSlot db m libName funcNidTable funcTable i)
      ∧ (getNameFromDatabase db libName (read32 m (funcNidTable + i * 4)) = none →
          importFuncSlot db m libName funcNidTable funcTable i =
            [Act.createDword (funcNidTable + i * 4), Act.createDword (funcTable + i * 4)]) := by
  constructor
  · intro n hn
    constructor <;> simp [importFuncSlot, hn]
  · intro hn
    simp [importFuncSlot, hn]

/-- C9 witness: the resolved entry of c9mem yields the stub-entry and
dot-prefixed names; with an empty database the same entry emits exactly
the two dword fields. -/
theorem c9_import_function_naming_witness :
    (Act.forceName (0x200 + 0 * 4) ("cellFsOpen" ++ ".stub_entry")
          ∈ importFuncSlot c9db c9mem "libfs" 0x100 0x200 0
        ∧ Act.forceName (read32 c9mem (0x200 + 0 * 4)) ("." ++ "cellFsOpen")
          ∈ importFuncSlot c9db c9mem "libfs" 0x100 0x200 0)
      ∧ importFuncSlot [] c9mem "libfs" 0x100 0x200 0 =
        [Act.createDword (0x100 + 0 * 4), Act.createDword (0x200 + 0 * 4)] :=
  ⟨(c9_import_function_naming c9db c9mem "libfs" 0x100 0x200 0).1 "cellFsOpen" (by decide),
   (c9_import_function_naming [] c9mem "libfs" 0x100 0x200 0).2 (by decide)⟩
